import Mathlib

/-!
Verification of `upright_control/dynamics/system_pinocchio_mapping.h`.

Vectors (`Eigen::VectorX<Scalar>`) are embedded as `List Int`.  Matrices
(`Eigen::MatrixX<Scalar>`) are embedded column-major, as the list of their
columns (`List (List Int)`): every matrix operation the source performs
(`leftCols`, `middleCols`, column-block assignment, horizontal
comma-initialisation, `Zero` allocation) is a column-block operation, so this
representation makes the embedding of each source line direct.
-/

namespace upright

/-- Scalar entries of vectors and matrices.  The source is templated over a
scalar type; we instantiate with `Int`. -/
abbrev Scalar := Int

/-- Embedding of `VecX<Scalar>`: a flat vector, as its list of entries. -/
abbrev VecXs := List Scalar

/-- Embedding of `MatX<Scalar>`: a matrix as the list of its columns
(column-major), each column a list of entries of length = number of rows. -/
abbrev MatXs := List (List Scalar)

/-- Eigen `v.head(n)` (for a matrix: `M.leftCols(n)`). -/
def eigenHead {α : Type*} (n : Nat) (v : List α) : List α :=
  v.take n

/-- Eigen `v.segment(i, n)` (for a matrix: `M.middleCols(i, n)`). -/
def eigenSegment {α : Type*} (v : List α) (i n : Nat) : List α :=
  (v.drop i).take n

/-- Eigen `v.tail(n)`: the last `n` entries. -/
def eigenTail {α : Type*} (n : Nat) (v : List α) : List α :=
  v.drop (v.length - n)

/-- Eigen block assignment `v.segment(i, w.size()) = w` (for a matrix:
`M.middleCols(i, cols) = B`), returning the updated vector/matrix. -/
def eigenSetSegment {α : Type*} (v : List α) (i : Nat) (w : List α) : List α :=
  v.take i ++ w ++ v.drop (i + w.length)

/-- Eigen `M.rows()`: the length of the first column (0 for a 0-column
matrix). -/
def eigenRows (M : MatXs) : Nat :=
  (M.headD []).length

/-- Eigen `MatXs::Zero(r, c)`: `c` columns, each `r` zero entries. -/
def eigenZero (r c : Nat) : MatXs :=
  List.replicate c (List.replicate r 0)

/-- Dimension record for a single mapped subsystem.  The struct itself lives in
`upright_control/dimensions.h`, which is not among the provided sources.
Modelled from the spec: fields q (generalized positions), v (generalized
velocities), x (state size), u (input size), in that order (the source
initialises `OBSTACLE_DIMENSIONS{3, 3, 9, 0}` positionally). -/
structure RobotDimensions where
  q : Nat
  v : Nat
  x : Nat
  u : Nat

/-- Combined dimensions: robot plus `o` obstacles.  From
`upright_control/dimensions.h`, not among the provided sources.  Modelled from
the spec: holds the robot dimensions and the obstacle count. -/
structure OptimizationDimensions where
  robot : RobotDimensions
  o : Nat

/-- Modelled from the spec: derived combined generalized-position count
`q() = robot.q + 3·o` (`dimensions.h` is not among the provided sources). -/
def OptimizationDimensions.q (d : OptimizationDimensions) : Nat :=
  d.robot.q + 3 * d.o

/-- Modelled from the spec: derived combined generalized-velocity count
`v() = robot.v + 3·o`. -/
def OptimizationDimensions.v (d : OptimizationDimensions) : Nat :=
  d.robot.v + 3 * d.o

/-- Modelled from the spec: derived combined state size `x() = robot.x + 9·o`. -/
def OptimizationDimensions.x (d : OptimizationDimensions) : Nat :=
  d.robot.x + 9 * d.o

/-- Modelled from the spec: derived combined input size `u() = robot.u`
(obstacles contribute no inputs). -/
def OptimizationDimensions.u (d : OptimizationDimensions) : Nat :=
  d.robot.u

/-- Interface of `ocs2::PinocchioStateInputMapping<Scalar>`, the contract both
mappings implement and the type under which the composite mapping holds its
robot mapping polymorphically. -/
structure PinocchioStateInputMapping where
  getPinocchioJointPosition : VecXs → VecXs
  getPinocchioJointVelocity : VecXs → VecXs → VecXs
  getPinocchioJointAcceleration : VecXs → VecXs → VecXs
  getOcs2Jacobian : VecXs → MatXs → MatXs → MatXs × MatXs

/-- Embedding of `TripleIntegratorPinocchioMapping<Scalar>`, line for line:
position is `state.head(q)`, velocity is `state.segment(q, v)`, acceleration is
`state.tail(v)`, and `getOcs2Jacobian` returns
`dfdx = [Jq | Jv | Zero(rows, v)]` and `dfdu = Zero(rows, u)`. -/
def TripleIntegratorPinocchioMapping (dims : RobotDimensions) :
    PinocchioStateInputMapping where
  getPinocchioJointPosition state := eigenHead dims.q state
  getPinocchioJointVelocity state _input := eigenSegment state dims.q dims.v
  getPinocchioJointAcceleration state _input := eigenTail dims.v state
  getOcs2Jacobian _state Jq Jv :=
    let output_dim := eigenRows Jq
    let dfdx := Jq ++ Jv ++ eigenZero output_dim dims.v
    let dfdu := eigenZero output_dim dims.u
    (dfdx, dfdu)

/-- The fixed obstacle dimensions `OBSTACLE_DIMENSIONS{3, 3, 9, 0}`. -/
def OBSTACLE_DIMENSIONS : RobotDimensions :=
  ⟨3, 3, 9, 0⟩

/-- The fixed obstacle mapping `OBSTACLE_PINOCCHIO_MAPPING<Scalar>`. -/
def OBSTACLE_PINOCCHIO_MAPPING : PinocchioStateInputMapping :=
  TripleIntegratorPinocchioMapping OBSTACLE_DIMENSIONS

namespace SystemPinocchioMapping

/-- Embedding of `SystemPinocchioMapping<Mapping, Scalar>::
getPinocchioJointPosition`.  The C++ object holds its `Mapping robot_mapping_`
member; here the held robot mapping is the explicit parameter `rm`.  The C++
allocates `q_pin(dims_.q())` uninitialised and then overwrites every entry; we
allocate it zero-filled (the overwrites below cover every entry, so the fill is
unobservable). -/
def getPinocchioJointPosition (dims : OptimizationDimensions)
    (rm : PinocchioStateInputMapping) (state : VecXs) : VecXs :=
  let q_pin : VecXs := List.replicate dims.q 0
  let x_robot := eigenHead dims.robot.x state
  let q_pin := eigenSetSegment q_pin 0 (rm.getPinocchioJointPosition x_robot)
  (List.range dims.o).foldl
    (fun acc i =>
      let x_obs := eigenSegment state (dims.robot.x + i * 9) 9
      eigenSetSegment acc (dims.robot.q + i * 3)
        (OBSTACLE_PINOCCHIO_MAPPING.getPinocchioJointPosition x_obs))
    q_pin

/-- Embedding of `SystemPinocchioMapping::getPinocchioJointVelocity`: robot
velocities first (robot sub-state and sub-input), then one 3-entry block per
obstacle, each obstacle receiving the zero 3-vector `u_obs` as input. -/
def getPinocchioJointVelocity (dims : OptimizationDimensions)
    (rm : PinocchioStateInputMapping) (state input : VecXs) : VecXs :=
  let v_pin : VecXs := List.replicate dims.v 0
  let u_obs : VecXs := List.replicate 3 0
  let x_robot := eigenHead dims.robot.x state
  let u_robot := eigenHead dims.robot.u input
  let v_pin := eigenSetSegment v_pin 0
    (rm.getPinocchioJointVelocity x_robot u_robot)
  (List.range dims.o).foldl
    (fun acc i =>
      let x_obs := eigenSegment state (dims.robot.x + i * 9) 9
      eigenSetSegment acc (dims.robot.v + i * 3)
        (OBSTACLE_PINOCCHIO_MAPPING.getPinocchioJointVelocity x_obs u_obs))
    v_pin

/-- Embedding of `SystemPinocchioMapping::getPinocchioJointAcceleration`:
identical structure to the velocity mapping, delegating to the acceleration
operations of the two sub-mappings. -/
def getPinocchioJointAcceleration (dims : OptimizationDimensions)
    (rm : PinocchioStateInputMapping) (state input : VecXs) : VecXs :=
  let a_pin : VecXs := List.replicate dims.v 0
  let u_obs : VecXs := List.replicate 3 0
  let x_robot := eigenHead dims.robot.x state
  let u_robot := eigenHead dims.robot.u input
  let a_pin := eigenSetSegment a_pin 0
    (rm.getPinocchioJointAcceleration x_robot u_robot)
  (List.range dims.o).foldl
    (fun acc i =>
      let x_obs := eigenSegment state (dims.robot.x + i * 9) 9
      eigenSetSegment acc (dims.robot.v + i * 3)
        (OBSTACLE_PINOCCHIO_MAPPING.getPinocchioJointAcceleration x_obs u_obs))
    a_pin

/-- Embedding of `SystemPinocchioMapping::getOcs2Jacobian`, with the freshly
allocated matrices `dfdx0`, `dfdu0` passed explicitly: the C++
`MatXs dfdx(output_dim, dims_.x()); MatXs dfdu(output_dim, dims_.u());`
allocations are uninitialised, so their contents are arbitrary parameters
here.  The body then writes the robot blocks (`leftCols`) and the obstacle
blocks (`middleCols`) exactly as the source does. -/
def getOcs2JacobianAlloc (dims : OptimizationDimensions)
    (rm : PinocchioStateInputMapping) (state : VecXs)
    (Jq_pin Jv_pin dfdx0 dfdu0 : MatXs) : MatXs × MatXs :=
  let x_robot := eigenHead dims.robot.x state
  let Jq_pin_robot := eigenHead dims.robot.q Jq_pin
  let Jv_pin_robot := eigenHead dims.robot.v Jv_pin
  let robot_pair := rm.getOcs2Jacobian x_robot Jq_pin_robot Jv_pin_robot
  let dfdx := eigenSetSegment dfdx0 0 robot_pair.1
  let dfdu := eigenSetSegment dfdu0 0 robot_pair.2
  let dfdx := (List.range dims.o).foldl
    (fun acc i =>
      let x_obs := eigenSegment state (dims.robot.x + i * 9) 9
      let Jq_pin_obs := eigenSegment Jq_pin (dims.robot.q + i * 3) 3
      let Jv_pin_obs := eigenSegment Jv_pin (dims.robot.v + i * 3) 3
      let dfdx_obs :=
        (OBSTACLE_PINOCCHIO_MAPPING.getOcs2Jacobian x_obs Jq_pin_obs
          Jv_pin_obs).1
      eigenSetSegment acc (dims.robot.x + i * 9) dfdx_obs)
    dfdx
  (dfdx, dfdu)

/-- Embedding of `SystemPinocchioMapping::getOcs2Jacobian`, with the
allocations `MatXs dfdx(output_dim, dims_.x())` and
`MatXs dfdu(output_dim, dims_.u())` instantiated zero-filled (the theorem on
allocation independence shows the fill is unobservable whenever the inputs
have their contract shapes). -/
def getOcs2Jacobian (dims : OptimizationDimensions)
    (rm : PinocchioStateInputMapping) (state : VecXs)
    (Jq_pin Jv_pin : MatXs) : MatXs × MatXs :=
  getOcs2JacobianAlloc dims rm state Jq_pin Jv_pin
    (eigenZero (eigenRows Jq_pin) dims.x) (eigenZero (eigenRows Jq_pin) dims.u)

end SystemPinocchioMapping

/-! Generic lemmas about block writes (`eigenSetSegment`) and block reads
(`eigenSegment`), shared by the vector and the column-major matrix level. -/

/-- Total length of a concatenation of equal-length blocks. -/
theorem flatten_length_blocks {α : Type*} (k : Nat) :
    ∀ L : List (List α), (∀ b ∈ L, b.length = k) →
      L.flatten.length = L.length * k := by
  intro L
  induction L with
  | nil => intro _; simp
  | cons b t ih =>
    intro h
    simp only [List.flatten_cons, List.length_append, List.length_cons]
    rw [ih (fun b hb => h b (List.mem_cons_of_mem _ hb)),
      h b (List.mem_cons_self _ _)]
    ring

/-- Closed form of the source's obstacle loops: folding segment writes of
`k`-sized blocks at offsets `p + i * k` over `i < n` replaces the region
`[p, p + n·k)` of the accumulator by the concatenation of the blocks. -/
theorem foldl_eigenSetSegment_blocks {α : Type*} (k : Nat) (g : Nat → List α) :
    ∀ (n : Nat) (w : List α) (p : Nat),
      (∀ i, i < n → (g i).length = k) → p ≤ w.length →
      (List.range n).foldl (fun acc i => eigenSetSegment acc (p + i * k) (g i)) w
        = w.take p ++ ((List.range n).map g).flatten ++ w.drop (p + n * k) := by
  intro n
  induction n with
  | zero =>
    intro w p _ _
    simp
  | succ n ih =>
    intro w p hg hp
    have hgn : (g n).length = k := hg n (Nat.lt_succ_self n)
    have hblocks : ∀ b ∈ (List.range n).map g, b.length = k := by
      intro b hb
      rcases List.mem_map.1 hb with ⟨i, hi, rfl⟩
      exact hg i (Nat.lt_succ_of_lt (List.mem_range.1 hi))
    have hA : (w.take p ++ ((List.range n).map g).flatten).length = p + n * k := by
      rw [List.length_append, List.length_take, Nat.min_eq_left hp,
        flatten_length_blocks k _ hblocks, List.length_map, List.length_range]
    have hdrop : ((w.take p ++ ((List.range n).map g).flatten)
          ++ w.drop (p + n * k)).drop (p + n * k + k)
        = w.drop (p + (n + 1) * k) := by
      rw [← List.drop_drop, List.drop_left' hA, List.drop_drop]
      congr 1
      ring
    rw [List.range_succ, List.foldl_append,
      ih w p (fun i hi => hg i (Nat.lt_succ_of_lt hi)) hp]
    simp only [List.foldl_cons, List.foldl_nil]
    unfold eigenSetSegment
    rw [List.take_left' hA, hgn, hdrop]
    simp [List.append_assoc]

/-- Dropping `i` whole blocks from a concatenation of `k`-sized blocks. -/
theorem flatten_drop_blocks {α : Type*} (k : Nat) :
    ∀ (bs : List (List α)) (i : Nat), (∀ b ∈ bs, b.length = k) →
      bs.flatten.drop (i * k) = (bs.drop i).flatten := by
  intro bs
  induction bs with
  | nil => intro i _; simp
  | cons b t ih =>
    intro i h
    cases i with
    | zero => simp
    | succ i =>
      have hb : b.length = k := h b (List.mem_cons_self _ _)
      rw [List.flatten_cons, Nat.succ_mul, Nat.add_comm, ← List.drop_drop,
        List.drop_left' hb, List.drop_succ_cons]
      exact ih i (fun b hb' => h b (List.mem_cons_of_mem _ hb'))

/-- Reading block `i` back out of a concatenation of `k`-sized blocks. -/
theorem eigenSegment_flatten_blocks {α : Type*} (k : Nat) (bs : List (List α))
    (hb : ∀ b ∈ bs, b.length = k) (i : Nat) (hi : i < bs.length) :
    eigenSegment bs.flatten (i * k) k = bs.get ⟨i, hi⟩ := by
  unfold eigenSegment
  rw [flatten_drop_blocks k bs i hb, List.drop_eq_getElem_cons hi,
    List.flatten_cons, List.take_left' (hb _ (List.getElem_mem hi))]
  simp

/-- Reading past a left part reads from the right part. -/
theorem eigenSegment_append_left {α : Type*} (A B : List α) (m t : Nat) :
    eigenSegment (A ++ B) (A.length + m) t = eigenSegment B m t := by
  unfold eigenSegment
  rw [← List.drop_drop, List.drop_left]

/-- Reading block `i` of `r ++ flatten (blocks)`, the closed form every
assembled output takes. -/
theorem eigenSegment_append_flatten {α : Type*} (r : List α) (g : Nat → List α)
    (n p k : Nat) (hr : r.length = p) (hg : ∀ i, i < n → (g i).length = k)
    (i : Nat) (hi : i < n) :
    eigenSegment (r ++ ((List.range n).map g).flatten) (p + i * k) k = g i := by
  have hb : ∀ b ∈ (List.range n).map g, b.length = k := by
    intro b hbm
    rcases List.mem_map.1 hbm with ⟨j, hj, rfl⟩
    exact hg j (List.mem_range.1 hj)
  have hlen : i < ((List.range n).map g).length := by
    simpa using hi
  rw [← hr, eigenSegment_append_left, eigenSegment_flatten_blocks k _ hb i hlen]
  simp

/-- Writing `r` at offset 0 into an allocation `w` and then folding the
`k`-block writes produces exactly `r` followed by the blocks, whenever the
allocation has exactly the tiled size: the closed form of every assembly in
the composite mapping, independent of the allocation's contents. -/
theorem assemble_blocks_eq {α : Type*} (p k n : Nat) (w r : List α)
    (g : Nat → List α) (hw : w.length = p + n * k) (hr : r.length = p)
    (hg : ∀ i, i < n → (g i).length = k) :
    (List.range n).foldl (fun acc i => eigenSetSegment acc (p + i * k) (g i))
        (eigenSetSegment w 0 r)
      = r ++ ((List.range n).map g).flatten := by
  have hw0 : (eigenSetSegment w 0 r).length = p + n * k := by
    simp only [eigenSetSegment, List.take_zero, List.nil_append,
      List.length_append, List.length_drop, hr, Nat.zero_add]
    omega
  rw [foldl_eigenSetSegment_blocks k g n _ p hg (by omega)]
  have h1 : (eigenSetSegment w 0 r).take p = r := by
    simp only [eigenSetSegment, List.take_zero, List.nil_append]
    exact List.take_left' hr
  have h2 : (eigenSetSegment w 0 r).drop (p + n * k) = [] := by
    exact List.drop_eq_nil_of_le (le_of_eq hw0)
  rw [h1, h2, List.append_nil]

/-- Writing a full-length block at offset 0 replaces the whole vector. -/
theorem eigenSetSegment_zero_full {α : Type*} (w r : List α)
    (h : r.length = w.length) : eigenSetSegment w 0 r = r := by
  simp only [eigenSetSegment, List.take_zero, List.nil_append, Nat.zero_add]
  rw [List.drop_eq_nil_of_le (le_of_eq h.symm), List.append_nil]

/-- Two vectors agreeing on a prefix agree on any segment inside it. -/
theorem take_agree_eigenSegment {α : Type*} {a b : List α} {n : Nat}
    (h : a.take n = b.take n) (i k : Nat) (hik : i + k ≤ n) :
    eigenSegment a i k = eigenSegment b i k := by
  have h2 : a.take (i + k) = b.take (i + k) := by
    have h3 := congrArg (List.take (i + k)) h
    rwa [List.take_take, List.take_take, Nat.min_eq_left hik] at h3
  unfold eigenSegment
  rw [List.take_drop, List.take_drop, h2]

/-- Two vectors agreeing on a prefix agree on any shorter head. -/
theorem take_agree_eigenHead {α : Type*} {a b : List α} {n : Nat}
    (h : a.take n = b.take n) (m : Nat) (hm : m ≤ n) :
    eigenHead m a = eigenHead m b := by
  have h3 := congrArg (List.take m) h
  unfold eigenHead
  rwa [List.take_take, List.take_take, Nat.min_eq_left hm] at h3

/-! Closed forms of the four composite operations: each equals the robot
sub-result followed by the concatenation of the per-obstacle sub-results. -/

namespace SystemPinocchioMapping

theorem getPinocchioJointPosition_closed (dims : OptimizationDimensions)
    (rm : PinocchioStateInputMapping) (state : VecXs)
    (hs : dims.robot.x + 9 * dims.o ≤ state.length)
    (hr : (rm.getPinocchioJointPosition (eigenHead dims.robot.x state)).length
      = dims.robot.q) :
    getPinocchioJointPosition dims rm state
      = rm.getPinocchioJointPosition (eigenHead dims.robot.x state)
        ++ ((List.range dims.o).map (fun i =>
            OBSTACLE_PINOCCHIO_MAPPING.getPinocchioJointPosition
              (eigenSegment state (dims.robot.x + i * 9) 9))).flatten := by
  unfold getPinocchioJointPosition
  exact assemble_blocks_eq dims.robot.q 3 dims.o
    (List.replicate dims.q 0)
    (rm.getPinocchioJointPosition (eigenHead dims.robot.x state))
    (fun i => OBSTACLE_PINOCCHIO_MAPPING.getPinocchioJointPosition
      (eigenSegment state (dims.robot.x + i * 9) 9))
    (by simp only [List.length_replicate, OptimizationDimensions.q]; ring)
    hr
    (fun i hi => by
      simp only [OBSTACLE_PINOCCHIO_MAPPING, TripleIntegratorPinocchioMapping,
        OBSTACLE_DIMENSIONS, eigenHead, eigenSegment, List.length_take,
        List.length_drop]
      omega)

theorem getPinocchioJointVelocity_closed (dims : OptimizationDimensions)
    (rm : PinocchioStateInputMapping) (state input : VecXs)
    (hs : dims.robot.x + 9 * dims.o ≤ state.length)
    (hr : (rm.getPinocchioJointVelocity (eigenHead dims.robot.x state)
        (eigenHead dims.robot.u input)).length = dims.robot.v) :
    getPinocchioJointVelocity dims rm state input
      = rm.getPinocchioJointVelocity (eigenHead dims.robot.x state)
          (eigenHead dims.robot.u input)
        ++ ((List.range dims.o).map (fun i =>
            OBSTACLE_PINOCCHIO_MAPPING.getPinocchioJointVelocity
              (eigenSegment state (dims.robot.x + i * 9) 9)
              (List.replicate 3 0))).flatten := by
  unfold getPinocchioJointVelocity
  exact assemble_blocks_eq dims.robot.v 3 dims.o
    (List.replicate dims.v 0)
    (rm.getPinocchioJointVelocity (eigenHead dims.robot.x state)
      (eigenHead dims.robot.u input))
    (fun i => OBSTACLE_PINOCCHIO_MAPPING.getPinocchioJointVelocity
      (eigenSegment state (dims.robot.x + i * 9) 9) (List.replicate 3 0))
    (by simp only [List.length_replicate, OptimizationDimensions.v]; ring)
    hr
    (fun i hi => by
      simp only [OBSTACLE_PINOCCHIO_MAPPING, TripleIntegratorPinocchioMapping,
        OBSTACLE_DIMENSIONS, eigenSegment, List.length_take, List.length_drop]
      omega)

theorem getPinocchioJointAcceleration_closed (dims : OptimizationDimensions)
    (rm : PinocchioStateInputMapping) (state input : VecXs)
    (hs : dims.robot.x + 9 * dims.o ≤ state.length)
    (hr : (rm.getPinocchioJointAcceleration (eigenHead dims.robot.x state)
        (eigenHead dims.robot.u input)).length = dims.robot.v) :
    getPinocchioJointAcceleration dims rm state input
      = rm.getPinocchioJointAcceleration (eigenHead dims.robot.x state)
          (eigenHead dims.robot.u input)
        ++ ((List.range dims.o).map (fun i =>
            OBSTACLE_PINOCCHIO_MAPPING.getPinocchioJointAcceleration
              (eigenSegment state (dims.robot.x + i * 9) 9)
              (List.replicate 3 0))).flatten := by
  unfold getPinocchioJointAcceleration
  exact assemble_blocks_eq dims.robot.v 3 dims.o
    (List.replicate dims.v 0)
    (rm.getPinocchioJointAcceleration (eigenHead dims.robot.x state)
      (eigenHead dims.robot.u input))
    (fun i => OBSTACLE_PINOCCHIO_MAPPING.getPinocchioJointAcceleration
      (eigenSegment state (dims.robot.x + i * 9) 9) (List.replicate 3 0))
    (by simp only [List.length_replicate, OptimizationDimensions.v]; ring)
    hr
    (fun i hi => by
      simp only [OBSTACLE_PINOCCHIO_MAPPING, TripleIntegratorPinocchioMapping,
        OBSTACLE_DIMENSIONS, eigenTail, eigenSegment, List.length_take,
        List.length_drop]
      omega)

theorem getOcs2JacobianAlloc_closed (dims : OptimizationDimensions)
    (rm : PinocchioStateInputMapping) (state : VecXs)
    (Jq_pin Jv_pin dfdx0 dfdu0 : MatXs)
    (hq : Jq_pin.length = dims.q) (hv : Jv_pin.length = dims.v)
    (hx0 : dfdx0.length = dims.x) (hu0 : dfdu0.length = dims.u)
    (hrx : (rm.getOcs2Jacobian (eigenHead dims.robot.x state)
        (eigenHead dims.robot.q Jq_pin) (eigenHead dims.robot.v Jv_pin)).1.length
      = dims.robot.x)
    (hru : (rm.getOcs2Jacobian (eigenHead dims.robot.x state)
        (eigenHead dims.robot.q Jq_pin) (eigenHead dims.robot.v Jv_pin)).2.length
      = dims.robot.u) :
    getOcs2JacobianAlloc dims rm state Jq_pin Jv_pin dfdx0 dfdu0
      = ((rm.getOcs2Jacobian (eigenHead dims.robot.x state)
            (eigenHead dims.robot.q Jq_pin) (eigenHead dims.robot.v Jv_pin)).1
          ++ ((List.range dims.o).map (fun i =>
              (OBSTACLE_PINOCCHIO_MAPPING.getOcs2Jacobian
                (eigenSegment state (dims.robot.x + i * 9) 9)
                (eigenSegment Jq_pin (dims.robot.q + i * 3) 3)
                (eigenSegment Jv_pin (dims.robot.v + i * 3) 3)).1)).flatten,
        (rm.getOcs2Jacobian (eigenHead dims.robot.x state)
          (eigenHead dims.robot.q Jq_pin) (eigenHead dims.robot.v Jv_pin)).2) := by
  unfold getOcs2JacobianAlloc
  refine Prod.ext ?_ ?_
  · exact assemble_blocks_eq dims.robot.x 9 dims.o dfdx0
      (rm.getOcs2Jacobian (eigenHead dims.robot.x state)
        (eigenHead dims.robot.q Jq_pin) (eigenHead dims.robot.v Jv_pin)).1
      (fun i => (OBSTACLE_PINOCCHIO_MAPPING.getOcs2Jacobian
        (eigenSegment state (dims.robot.x + i * 9) 9)
        (eigenSegment Jq_pin (dims.robot.q + i * 3) 3)
        (eigenSegment Jv_pin (dims.robot.v + i * 3) 3)).1)
      (by rw [hx0]; simp only [OptimizationDimensions.x]; ring)
      hrx
      (fun i hi => by
        simp only [OptimizationDimensions.q] at hq
        simp only [OptimizationDimensions.v] at hv
        simp only [OBSTACLE_PINOCCHIO_MAPPING, TripleIntegratorPinocchioMapping,
          OBSTACLE_DIMENSIONS, eigenZero, eigenSegment, List.length_append,
          List.length_take, List.length_drop, List.length_replicate, hq, hv]
        omega)
  · exact eigenSetSegment_zero_full dfdu0 _
      (by rw [hru, hu0]; simp [OptimizationDimensions.u])

theorem getOcs2Jacobian_closed (dims : OptimizationDimensions)
    (rm : PinocchioStateInputMapping) (state : VecXs) (Jq_pin Jv_pin : MatXs)
    (hq : Jq_pin.length = dims.q) (hv : Jv_pin.length = dims.v)
    (hrx : (rm.getOcs2Jacobian (eigenHead dims.robot.x state)
        (eigenHead dims.robot.q Jq_pin) (eigenHead dims.robot.v Jv_pin)).1.length
      = dims.robot.x)
    (hru : (rm.getOcs2Jacobian (eigenHead dims.robot.x state)
        (eigenHead dims.robot.q Jq_pin) (eigenHead dims.robot.v Jv_pin)).2.length
      = dims.robot.u) :
    getOcs2Jacobian dims rm state Jq_pin Jv_pin
      = ((rm.getOcs2Jacobian (eigenHead dims.robot.x state)
            (eigenHead dims.robot.q Jq_pin) (eigenHead dims.robot.v Jv_pin)).1
          ++ ((List.range dims.o).map (fun i =>
              (OBSTACLE_PINOCCHIO_MAPPING.getOcs2Jacobian
                (eigenSegment state (dims.robot.x + i * 9) 9)
                (eigenSegment Jq_pin (dims.robot.q + i * 3) 3)
                (eigenSegment Jv_pin (dims.robot.v + i * 3) 3)).1)).flatten,
        (rm.getOcs2Jacobian (eigenHead dims.robot.x state)
          (eigenHead dims.robot.q Jq_pin) (eigenHead dims.robot.v Jv_pin)).2) :=
  getOcs2JacobianAlloc_closed dims rm state Jq_pin Jv_pin _ _ hq hv
    (by simp [eigenZero]) (by simp [eigenZero]) hrx hru

end SystemPinocchioMapping

/-- Pointwise block-length facts transfer to all members of a mapped range. -/
theorem map_range_blocks {α : Type*} {k n : Nat} {g : Nat → List α}
    (hg : ∀ i, i < n → (g i).length = k) :
    ∀ b ∈ (List.range n).map g, b.length = k := by
  intro b hb
  rcases List.mem_map.1 hb with ⟨i, hi, rfl⟩
  exact hg i (List.mem_range.1 hi)

/-- Reading a head prefix back out of an append. -/
theorem eigenHead_append_left {α : Type*} (A B : List α) (n : Nat)
    (h : A.length = n) : eigenHead n (A ++ B) = A :=
  List.take_left' h

namespace SystemPinocchioMapping

/-- Each obstacle position sub-result has 3 entries. -/
theorem pos_blocks_length (dims : OptimizationDimensions) (state : VecXs)
    (hs : dims.robot.x + 9 * dims.o ≤ state.length) :
    ∀ i, i < dims.o → (OBSTACLE_PINOCCHIO_MAPPING.getPinocchioJointPosition
      (eigenSegment state (dims.robot.x + i * 9) 9)).length = 3 := fun i hi => by
  simp only [OBSTACLE_PINOCCHIO_MAPPING, TripleIntegratorPinocchioMapping,
    OBSTACLE_DIMENSIONS, eigenHead, eigenSegment, List.length_take,
    List.length_drop]
  omega

/-- Each obstacle velocity sub-result has 3 entries. -/
theorem vel_blocks_length (dims : OptimizationDimensions) (state u0 : VecXs)
    (hs : dims.robot.x + 9 * dims.o ≤ state.length) :
    ∀ i, i < dims.o → (OBSTACLE_PINOCCHIO_MAPPING.getPinocchioJointVelocity
      (eigenSegment state (dims.robot.x + i * 9) 9) u0).length = 3 := fun i hi => by
  simp only [OBSTACLE_PINOCCHIO_MAPPING, TripleIntegratorPinocchioMapping,
    OBSTACLE_DIMENSIONS, eigenSegment, List.length_take, List.length_drop]
  omega

/-- Each obstacle acceleration sub-result has 3 entries. -/
theorem acc_blocks_length (dims : OptimizationDimensions) (state u0 : VecXs)
    (hs : dims.robot.x + 9 * dims.o ≤ state.length) :
    ∀ i, i < dims.o → (OBSTACLE_PINOCCHIO_MAPPING.getPinocchioJointAcceleration
      (eigenSegment state (dims.robot.x + i * 9) 9) u0).length = 3 := fun i hi => by
  simp only [OBSTACLE_PINOCCHIO_MAPPING, TripleIntegratorPinocchioMapping,
    OBSTACLE_DIMENSIONS, eigenTail, eigenSegment, List.length_take,
    List.length_drop]
  omega

/-- Each obstacle dfdx sub-result has 9 columns. -/
theorem jac_blocks_length (dims : OptimizationDimensions)
    (state : VecXs) (Jq_pin Jv_pin : MatXs)
    (hq : Jq_pin.length = dims.q) (hv : Jv_pin.length = dims.v) :
    ∀ i, i < dims.o → ((OBSTACLE_PINOCCHIO_MAPPING.getOcs2Jacobian
      (eigenSegment state (dims.robot.x + i * 9) 9)
      (eigenSegment Jq_pin (dims.robot.q + i * 3) 3)
      (eigenSegment Jv_pin (dims.robot.v + i * 3) 3)).1).length = 9 :=
  fun i hi => by
    simp only [OptimizationDimensions.q] at hq
    simp only [OptimizationDimensions.v] at hv
    simp only [OBSTACLE_PINOCCHIO_MAPPING, TripleIntegratorPinocchioMapping,
      OBSTACLE_DIMENSIONS, eigenZero, eigenSegment, List.length_append,
      List.length_take, List.length_drop, List.length_replicate, hq, hv]
    omega

/-- Robot part of the assembled position vector. -/
theorem getPosition_head (dims : OptimizationDimensions)
    (rm : PinocchioStateInputMapping) (state : VecXs)
    (hs : dims.robot.x + 9 * dims.o ≤ state.length)
    (hr : (rm.getPinocchioJointPosition (eigenHead dims.robot.x state)).length
      = dims.robot.q) :
    eigenHead dims.robot.q (getPinocchioJointPosition dims rm state)
      = rm.getPinocchioJointPosition (eigenHead dims.robot.x state) := by
  rw [getPinocchioJointPosition_closed dims rm state hs hr]
  exact eigenHead_append_left _ _ _ hr

/-- Obstacle block `i` of the assembled position vector. -/
theorem getPosition_block (dims : OptimizationDimensions)
    (rm : PinocchioStateInputMapping) (state : VecXs)
    (hs : dims.robot.x + 9 * dims.o ≤ state.length)
    (hr : (rm.getPinocchioJointPosition (eigenHead dims.robot.x state)).length
      = dims.robot.q)
    (i : Nat) (hi : i < dims.o) :
    eigenSegment (getPinocchioJointPosition dims rm state)
        (dims.robot.q + i * 3) 3
      = OBSTACLE_PINOCCHIO_MAPPING.getPinocchioJointPosition
          (eigenSegment state (dims.robot.x + i * 9) 9) := by
  rw [getPinocchioJointPosition_closed dims rm state hs hr]
  exact eigenSegment_append_flatten _ _ dims.o dims.robot.q 3 hr
    (pos_blocks_length dims state hs) i hi

/-- Length of the assembled position vector. -/
theorem getPosition_length (dims : OptimizationDimensions)
    (rm : PinocchioStateInputMapping) (state : VecXs)
    (hs : dims.robot.x + 9 * dims.o ≤ state.length)
    (hr : (rm.getPinocchioJointPosition (eigenHead dims.robot.x state)).length
      = dims.robot.q) :
    (getPinocchioJointPosition dims rm state).length
      = dims.robot.q + 3 * dims.o := by
  rw [getPinocchioJointPosition_closed dims rm state hs hr, List.length_append,
    hr, flatten_length_blocks 3 _ (map_range_blocks (pos_blocks_length dims state hs)),
    List.length_map, List.length_range]
  ring

/-- Robot part of the assembled velocity vector. -/
theorem getVelocity_head (dims : OptimizationDimensions)
    (rm : PinocchioStateInputMapping) (state input : VecXs)
    (hs : dims.robot.x + 9 * dims.o ≤ state.length)
    (hr : (rm.getPinocchioJointVelocity (eigenHead dims.robot.x state)
        (eigenHead dims.robot.u input)).length = dims.robot.v) :
    eigenHead dims.robot.v (getPinocchioJointVelocity dims rm state input)
      = rm.getPinocchioJointVelocity (eigenHead dims.robot.x state)
          (eigenHead dims.robot.u input) := by
  rw [getPinocchioJointVelocity_closed dims rm state input hs hr]
  exact eigenHead_append_left _ _ _ hr

/-- Obstacle block `i` of the assembled velocity vector: the obstacle mapping
applied to the obstacle's state slice and the zero 3-vector input. -/
theorem getVelocity_block (dims : OptimizationDimensions)
    (rm : PinocchioStateInputMapping) (state input : VecXs)
    (hs : dims.robot.x + 9 * dims.o ≤ state.length)
    (hr : (rm.getPinocchioJointVelocity (eigenHead dims.robot.x state)
        (eigenHead dims.robot.u input)).length = dims.robot.v)
    (i : Nat) (hi : i < dims.o) :
    eigenSegment (getPinocchioJointVelocity dims rm state input)
        (dims.robot.v + i * 3) 3
      = OBSTACLE_PINOCCHIO_MAPPING.getPinocchioJointVelocity
          (eigenSegment state (dims.robot.x + i * 9) 9)
          (List.replicate 3 0) := by
  rw [getPinocchioJointVelocity_closed dims rm state input hs hr]
  exact eigenSegment_append_flatten _ _ dims.o dims.robot.v 3 hr
    (vel_blocks_length dims state _ hs) i hi

/-- Length of the assembled velocity vector. -/
theorem getVelocity_length (dims : OptimizationDimensions)
    (rm : PinocchioStateInputMapping) (state input : VecXs)
    (hs : dims.robot.x + 9 * dims.o ≤ state.length)
    (hr : (rm.getPinocchioJointVelocity (eigenHead dims.robot.x state)
        (eigenHead dims.robot.u input)).length = dims.robot.v) :
    (getPinocchioJointVelocity dims rm state input).length
      = dims.robot.v + 3 * dims.o := by
  rw [getPinocchioJointVelocity_closed dims rm state input hs hr,
    List.length_append, hr,
    flatten_length_blocks 3 _ (map_range_blocks (vel_blocks_length dims state _ hs)),
    List.length_map, List.length_range]
  ring

/-- Robot part of the assembled acceleration vector. -/
theorem getAcceleration_head (dims : OptimizationDimensions)
    (rm : PinocchioStateInputMapping) (state input : VecXs)
    (hs : dims.robot.x + 9 * dims.o ≤ state.length)
    (hr : (rm.getPinocchioJointAcceleration (eigenHead dims.robot.x state)
        (eigenHead dims.robot.u input)).length = dims.robot.v) :
    eigenHead dims.robot.v (getPinocchioJointAcceleration dims rm state input)
      = rm.getPinocchioJointAcceleration (eigenHead dims.robot.x state)
          (eigenHead dims.robot.u input) := by
  rw [getPinocchioJointAcceleration_closed dims rm state input hs hr]
  exact eigenHead_append_left _ _ _ hr

/-- Obstacle block `i` of the assembled acceleration vector. -/
theorem getAcceleration_block (dims : OptimizationDimensions)
    (rm : PinocchioStateInputMapping) (state input : VecXs)
    (hs : dims.robot.x + 9 * dims.o ≤ state.length)
    (hr : (rm.getPinocchioJointAcceleration (eigenHead dims.robot.x state)
        (eigenHead dims.robot.u input)).length = dims.robot.v)
    (i : Nat) (hi : i < dims.o) :
    eigenSegment (getPinocchioJointAcceleration dims rm state input)
        (dims.robot.v + i * 3) 3
      = OBSTACLE_PINOCCHIO_MAPPING.getPinocchioJointAcceleration
          (eigenSegment state (dims.robot.x + i * 9) 9)
          (List.replicate 3 0) := by
  rw [getPinocchioJointAcceleration_closed dims rm state input hs hr]
  exact eigenSegment_append_flatten _ _ dims.o dims.robot.v 3 hr
    (acc_blocks_length dims state _ hs) i hi

/-- Length of the assembled acceleration vector. -/
theorem getAcceleration_length (dims : OptimizationDimensions)
    (rm : PinocchioStateInputMapping) (state input : VecXs)
    (hs : dims.robot.x + 9 * dims.o ≤ state.length)
    (hr : (rm.getPinocchioJointAcceleration (eigenHead dims.robot.x state)
        (eigenHead dims.robot.u input)).length = dims.robot.v) :
    (getPinocchioJointAcceleration dims rm state input).length
      = dims.robot.v + 3 * dims.o := by
  rw [getPinocchioJointAcceleration_closed dims rm state input hs hr,
    List.length_append, hr,
    flatten_length_blocks 3 _ (map_range_blocks (acc_blocks_length dims state _ hs)),
    List.length_map, List.length_range]
  ring

end SystemPinocchioMapping

/-! Claim theorems. -/

/-- C9: the Obstacle Kinematic Mapping's getJacobianPair result never depends
on its state argument: for any two state vectors and any Jacobians `Jq`, `Jv`,
the results coincide. -/
theorem obstacle_jacobian_state_independent (s1 s2 : VecXs) (Jq Jv : MatXs) :
    OBSTACLE_PINOCCHIO_MAPPING.getOcs2Jacobian s1 Jq Jv
      = OBSTACLE_PINOCCHIO_MAPPING.getOcs2Jacobian s2 Jq Jv := rfl

/-- C4: for every obstacle state of length exactly 9 and every input,
getPosition returns entries `[0,3)` of the state, getVelocity entries `[3,6)`,
getAcceleration entries `[6,9)`; the input argument (universally quantified
here) never affects the velocity or acceleration result. -/
theorem obstacle_kinematics_slices (state input : VecXs)
    (h : state.length = 9) :
    OBSTACLE_PINOCCHIO_MAPPING.getPinocchioJointPosition state
        = eigenSegment state 0 3
      ∧ OBSTACLE_PINOCCHIO_MAPPING.getPinocchioJointVelocity state input
        = eigenSegment state 3 3
      ∧ OBSTACLE_PINOCCHIO_MAPPING.getPinocchioJointAcceleration state input
        = eigenSegment state 6 3 := by
  refine ⟨?_, rfl, ?_⟩
  · simp [OBSTACLE_PINOCCHIO_MAPPING, TripleIntegratorPinocchioMapping,
      OBSTACLE_DIMENSIONS, eigenHead, eigenSegment]
  · simp only [OBSTACLE_PINOCCHIO_MAPPING, TripleIntegratorPinocchioMapping,
      OBSTACLE_DIMENSIONS, eigenTail, eigenSegment, h]
    rw [List.take_of_length_le (by simp [h])]

/-- C4 witness: the three slice equations at the concrete obstacle state
`[1,…,9]` with input `[5]`. -/
theorem obstacle_kinematics_slices_witness :
    ([1, 2, 3, 4, 5, 6, 7, 8, 9] : VecXs).length = 9
      ∧ (OBSTACLE_PINOCCHIO_MAPPING.getPinocchioJointPosition
            [1, 2, 3, 4, 5, 6, 7, 8, 9]
          = eigenSegment [1, 2, 3, 4, 5, 6, 7, 8, 9] 0 3
        ∧ OBSTACLE_PINOCCHIO_MAPPING.getPinocchioJointVelocity
            [1, 2, 3, 4, 5, 6, 7, 8, 9] [5]
          = eigenSegment [1, 2, 3, 4, 5, 6, 7, 8, 9] 3 3
        ∧ OBSTACLE_PINOCCHIO_MAPPING.getPinocchioJointAcceleration
            [1, 2, 3, 4, 5, 6, 7, 8, 9] [5]
          = eigenSegment [1, 2, 3, 4, 5, 6, 7, 8, 9] 6 3) :=
  ⟨by decide, obstacle_kinematics_slices [1, 2, 3, 4, 5, 6, 7, 8, 9] [5]
    (by decide)⟩

/-- C2: for every obstacle state of length 9 and Jacobians `Jq`, `Jv` of 3
columns each, all columns of length `rows`, getJacobianPair returns
`dfdx = [Jq | Jv | zero(rows, 3)]` — hence 9 columns — and `dfdu` the empty
`(rows, 0)` matrix. -/
theorem obstacle_getOcs2Jacobian_blocks (state : VecXs) (Jq Jv : MatXs)
    (rows : Nat) (hstate : state.length = 9)
    (hJq : Jq.length = 3) (hJv : Jv.length = 3)
    (hq : ∀ c ∈ Jq, c.length = rows) (hv : ∀ c ∈ Jv, c.length = rows) :
    (OBSTACLE_PINOCCHIO_MAPPING.getOcs2Jacobian state Jq Jv).1
        = Jq ++ Jv ++ eigenZero rows 3
      ∧ (OBSTACLE_PINOCCHIO_MAPPING.getOcs2Jacobian state Jq Jv).1.length = 9
      ∧ (OBSTACLE_PINOCCHIO_MAPPING.getOcs2Jacobian state Jq Jv).2
        = eigenZero rows 0 := by
  have hrows : eigenRows Jq = rows := by
    cases Jq with
    | nil => simp at hJq
    | cons c t => exact hq c (List.mem_cons_self _ _)
  refine ⟨?_, ?_, ?_⟩
  · simp only [OBSTACLE_PINOCCHIO_MAPPING, TripleIntegratorPinocchioMapping,
      OBSTACLE_DIMENSIONS, hrows]
  · simp only [OBSTACLE_PINOCCHIO_MAPPING, TripleIntegratorPinocchioMapping,
      OBSTACLE_DIMENSIONS, eigenZero, List.length_append,
      List.length_replicate, hJq, hJv]
  · simp [OBSTACLE_PINOCCHIO_MAPPING, TripleIntegratorPinocchioMapping,
      OBSTACLE_DIMENSIONS, eigenZero]

/-- C2 witness: a 2-row instance with concrete Jacobian columns. -/
theorem obstacle_getOcs2Jacobian_blocks_witness :
    (([1, 2, 3, 4, 5, 6, 7, 8, 9] : VecXs).length = 9
        ∧ ([[1, 2], [3, 4], [5, 6]] : MatXs).length = 3
        ∧ ([[7, 8], [9, 10], [11, 12]] : MatXs).length = 3
        ∧ (∀ c ∈ ([[1, 2], [3, 4], [5, 6]] : MatXs), c.length = 2)
        ∧ (∀ c ∈ ([[7, 8], [9, 10], [11, 12]] : MatXs), c.length = 2))
      ∧ ((OBSTACLE_PINOCCHIO_MAPPING.getOcs2Jacobian [1, 2, 3, 4, 5, 6, 7, 8, 9]
            [[1, 2], [3, 4], [5, 6]] [[7, 8], [9, 10], [11, 12]]).1
          = [[1, 2], [3, 4], [5, 6]] ++ [[7, 8], [9, 10], [11, 12]]
            ++ eigenZero 2 3
        ∧ (OBSTACLE_PINOCCHIO_MAPPING.getOcs2Jacobian [1, 2, 3, 4, 5, 6, 7, 8, 9]
            [[1, 2], [3, 4], [5, 6]] [[7, 8], [9, 10], [11, 12]]).1.length = 9
        ∧ (OBSTACLE_PINOCCHIO_MAPPING.getOcs2Jacobian [1, 2, 3, 4, 5, 6, 7, 8, 9]
            [[1, 2], [3, 4], [5, 6]] [[7, 8], [9, 10], [11, 12]]).2
          = eigenZero 2 0) :=
  ⟨⟨by decide, by decide, by decide, by decide, by decide⟩,
    obstacle_getOcs2Jacobian_blocks [1, 2, 3, 4, 5, 6, 7, 8, 9]
      [[1, 2], [3, 4], [5, 6]] [[7, 8], [9, 10], [11, 12]] 2
      (by decide) (by decide) (by decide) (by decide) (by decide)⟩

/-- C6: the spec's concrete scenario — robot dims q=1, v=1, x=2, u=1, one
obstacle, robot mapping the triple-integrator-style identity mapping — on the
state `[10, 20, 1, …, 9]` yields position `[10, 1, 2, 3]`, velocity
`[20, 4, 5, 6]` and acceleration `[20, 7, 8, 9]` (input `[0]`). -/
theorem concrete_scenario_kinematics :
    SystemPinocchioMapping.getPinocchioJointPosition
        ⟨⟨1, 1, 2, 1⟩, 1⟩ (TripleIntegratorPinocchioMapping ⟨1, 1, 2, 1⟩)
        [10, 20, 1, 2, 3, 4, 5, 6, 7, 8, 9] = [10, 1, 2, 3]
      ∧ SystemPinocchioMapping.getPinocchioJointVelocity
        ⟨⟨1, 1, 2, 1⟩, 1⟩ (TripleIntegratorPinocchioMapping ⟨1, 1, 2, 1⟩)
        [10, 20, 1, 2, 3, 4, 5, 6, 7, 8, 9] [0] = [20, 4, 5, 6]
      ∧ SystemPinocchioMapping.getPinocchioJointAcceleration
        ⟨⟨1, 1, 2, 1⟩, 1⟩ (TripleIntegratorPinocchioMapping ⟨1, 1, 2, 1⟩)
        [10, 20, 1, 2, 3, 4, 5, 6, 7, 8, 9] [0] = [20, 7, 8, 9] := by
  refine ⟨?_, ?_, ?_⟩ <;> decide

/-- C5: for a state of length x() and input of length u(), the composite
getVelocity has length robot.v + 3·o, its first robot.v entries are the robot
mapping's getVelocity on the robot sub-state and sub-input, and its 3-entry
block i is the obstacle mapping's getVelocity on obstacle i's 9-entry slice
with a zero 3-vector input; getAcceleration has the identical structure. -/
theorem composite_velocity_acceleration_blocks (dims : OptimizationDimensions)
    (rm : PinocchioStateInputMapping) (state input : VecXs)
    (hs : state.length = dims.x) (hin : input.length = dims.u)
    (hrv : (rm.getPinocchioJointVelocity (eigenHead dims.robot.x state)
        (eigenHead dims.robot.u input)).length = dims.robot.v)
    (hra : (rm.getPinocchioJointAcceleration (eigenHead dims.robot.x state)
        (eigenHead dims.robot.u input)).length = dims.robot.v) :
    (SystemPinocchioMapping.getPinocchioJointVelocity dims rm state input).length
        = dims.robot.v + 3 * dims.o
      ∧ eigenHead dims.robot.v
          (SystemPinocchioMapping.getPinocchioJointVelocity dims rm state input)
        = rm.getPinocchioJointVelocity (eigenHead dims.robot.x state)
            (eigenHead dims.robot.u input)
      ∧ (∀ i, i < dims.o →
          eigenSegment
              (SystemPinocchioMapping.getPinocchioJointVelocity dims rm state input)
              (dims.robot.v + i * 3) 3
            = OBSTACLE_PINOCCHIO_MAPPING.getPinocchioJointVelocity
                (eigenSegment state (dims.robot.x + i * 9) 9)
                (List.replicate 3 0))
      ∧ (SystemPinocchioMapping.getPinocchioJointAcceleration dims rm state
          input).length = dims.robot.v + 3 * dims.o
      ∧ eigenHead dims.robot.v
          (SystemPinocchioMapping.getPinocchioJointAcceleration dims rm state input)
        = rm.getPinocchioJointAcceleration (eigenHead dims.robot.x state)
            (eigenHead dims.robot.u input)
      ∧ (∀ i, i < dims.o →
          eigenSegment
              (SystemPinocchioMapping.getPinocchioJointAcceleration dims rm state
                input)
              (dims.robot.v + i * 3) 3
            = OBSTACLE_PINOCCHIO_MAPPING.getPinocchioJointAcceleration
                (eigenSegment state (dims.robot.x + i * 9) 9)
                (List.replicate 3 0)) := by
  have hs9 : dims.robot.x + 9 * dims.o ≤ state.length := by
    rw [hs]; simp only [OptimizationDimensions.x]; omega
  exact ⟨SystemPinocchioMapping.getVelocity_length dims rm state input hs9 hrv,
    SystemPinocchioMapping.getVelocity_head dims rm state input hs9 hrv,
    fun i hi =>
      SystemPinocchioMapping.getVelocity_block dims rm state input hs9 hrv i hi,
    SystemPinocchioMapping.getAcceleration_length dims rm state input hs9 hra,
    SystemPinocchioMapping.getAcceleration_head dims rm state input hs9 hra,
    fun i hi =>
      SystemPinocchioMapping.getAcceleration_block dims rm state input hs9 hra
        i hi⟩

/-- C1: for a state of length x() and Jacobians Jq_pin with q() and Jv_pin
with v() columns (robot sub-results having their contract column counts), the
composite getJacobianPair returns dfdx with x() and dfdu with u() columns;
dfdx's leftmost robot.x columns and dfdu's leftmost robot.u columns equal the
robot sub-results; dfdx's columns [robot.x + 9·i, robot.x + 9·i + 9) equal
obstacle i's dfdx on its state and Jacobian slices; and dfdx is exactly the
robot block followed by the o obstacle blocks, which tile all x() columns:
every column is written exactly once. -/
theorem composite_getOcs2Jacobian_assembly (dims : OptimizationDimensions)
    (rm : PinocchioStateInputMapping) (state : VecXs) (Jq_pin Jv_pin : MatXs)
    (hs : state.length = dims.x)
    (hq : Jq_pin.length = dims.q) (hv : Jv_pin.length = dims.v)
    (hrx : (rm.getOcs2Jacobian (eigenHead dims.robot.x state)
        (eigenHead dims.robot.q Jq_pin) (eigenHead dims.robot.v Jv_pin)).1.length
      = dims.robot.x)
    (hru : (rm.getOcs2Jacobian (eigenHead dims.robot.x state)
        (eigenHead dims.robot.q Jq_pin) (eigenHead dims.robot.v Jv_pin)).2.length
      = dims.robot.u) :
    (SystemPinocchioMapping.getOcs2Jacobian dims rm state Jq_pin Jv_pin).1.length
        = dims.x
      ∧ (SystemPinocchioMapping.getOcs2Jacobian dims rm state Jq_pin
          Jv_pin).2.length = dims.u
      ∧ eigenHead dims.robot.x
          (SystemPinocchioMapping.getOcs2Jacobian dims rm state Jq_pin Jv_pin).1
        = (rm.getOcs2Jacobian (eigenHead dims.robot.x state)
            (eigenHead dims.robot.q Jq_pin) (eigenHead dims.robot.v Jv_pin)).1
      ∧ eigenHead dims.robot.u
          (SystemPinocchioMapping.getOcs2Jacobian dims rm state Jq_pin Jv_pin).2
        = (rm.getOcs2Jacobian (eigenHead dims.robot.x state)
            (eigenHead dims.robot.q Jq_pin) (eigenHead dims.robot.v Jv_pin)).2
      ∧ (∀ i, i < dims.o →
          eigenSegment
              (SystemPinocchioMapping.getOcs2Jacobian dims rm state Jq_pin
                Jv_pin).1
              (dims.robot.x + i * 9) 9
            = (OBSTACLE_PINOCCHIO_MAPPING.getOcs2Jacobian
                (eigenSegment state (dims.robot.x + i * 9) 9)
                (eigenSegment Jq_pin (dims.robot.q + i * 3) 3)
                (eigenSegment Jv_pin (dims.robot.v + i * 3) 3)).1)
      ∧ dims.robot.x + 9 * dims.o = dims.x
      ∧ (SystemPinocchioMapping.getOcs2Jacobian dims rm state Jq_pin Jv_pin).1
        = (rm.getOcs2Jacobian (eigenHead dims.robot.x state)
            (eigenHead dims.robot.q Jq_pin) (eigenHead dims.robot.v Jv_pin)).1
          ++ ((List.range dims.o).map (fun i =>
              (OBSTACLE_PINOCCHIO_MAPPING.getOcs2Jacobian
                (eigenSegment state (dims.robot.x + i * 9) 9)
                (eigenSegment Jq_pin (dims.robot.q + i * 3) 3)
                (eigenSegment Jv_pin (dims.robot.v + i * 3) 3)).1)).flatten := by
  have hcl := SystemPinocchioMapping.getOcs2Jacobian_closed dims rm state
    Jq_pin Jv_pin hq hv hrx hru
  have hg := SystemPinocchioMapping.jac_blocks_length dims state Jq_pin Jv_pin
    hq hv
  have h1 : (SystemPinocchioMapping.getOcs2Jacobian dims rm state Jq_pin
      Jv_pin).1
      = (rm.getOcs2Jacobian (eigenHead dims.robot.x state)
          (eigenHead dims.robot.q Jq_pin) (eigenHead dims.robot.v Jv_pin)).1
        ++ ((List.range dims.o).map (fun i =>
            (OBSTACLE_PINOCCHIO_MAPPING.getOcs2Jacobian
              (eigenSegment state (dims.robot.x + i * 9) 9)
              (eigenSegment Jq_pin (dims.robot.q + i * 3) 3)
              (eigenSegment Jv_pin (dims.robot.v + i * 3) 3)).1)).flatten := by
    rw [hcl]
  have h2 : (SystemPinocchioMapping.getOcs2Jacobian dims rm state Jq_pin
      Jv_pin).2
      = (rm.getOcs2Jacobian (eigenHead dims.robot.x state)
          (eigenHead dims.robot.q Jq_pin) (eigenHead dims.robot.v Jv_pin)).2 := by
    rw [hcl]
  refine ⟨?_, ?_, ?_, ?_, ?_, ?_, h1⟩
  · rw [h1, List.length_append, hrx,
      flatten_length_blocks 9 _ (map_range_blocks hg), List.length_map,
      List.length_range]
    simp only [OptimizationDimensions.x]
    ring
  · rw [h2, hru]
    simp only [OptimizationDimensions.u]
  · rw [h1]
    exact eigenHead_append_left _ _ _ hrx
  · rw [h2]
    exact List.take_of_length_le (le_of_eq hru)
  · intro i hi
    rw [h1]
    exact eigenSegment_append_flatten _ _ dims.o dims.robot.x 9 hrx hg i hi
  · simp only [OptimizationDimensions.x]

/-- C3: with o = 0, each of the four composite operations returns exactly the
held robot mapping's result on the same (robot-sized) arguments. -/
theorem composite_degenerates_to_robot (dims : OptimizationDimensions)
    (rm : PinocchioStateInputMapping) (state input : VecXs) (Jq Jv : MatXs)
    (ho : dims.o = 0)
    (hs : state.length = dims.robot.x) (hin : input.length = dims.robot.u)
    (hJq : Jq.length = dims.robot.q) (hJv : Jv.length = dims.robot.v)
    (hp : (rm.getPinocchioJointPosition state).length = dims.robot.q)
    (hvl : (rm.getPinocchioJointVelocity state input).length = dims.robot.v)
    (hal : (rm.getPinocchioJointAcceleration state input).length = dims.robot.v)
    (hjx : (rm.getOcs2Jacobian state Jq Jv).1.length = dims.robot.x)
    (hju : (rm.getOcs2Jacobian state Jq Jv).2.length = dims.robot.u) :
    SystemPinocchioMapping.getPinocchioJointPosition dims rm state
        = rm.getPinocchioJointPosition state
      ∧ SystemPinocchioMapping.getPinocchioJointVelocity dims rm state input
        = rm.getPinocchioJointVelocity state input
      ∧ SystemPinocchioMapping.getPinocchioJointAcceleration dims rm state input
        = rm.getPinocchioJointAcceleration state input
      ∧ SystemPinocchioMapping.getOcs2Jacobian dims rm state Jq Jv
        = rm.getOcs2Jacobian state Jq Jv := by
  have hsx : eigenHead dims.robot.x state = state :=
    List.take_of_length_le (le_of_eq hs)
  have hiu : eigenHead dims.robot.u input = input :=
    List.take_of_length_le (le_of_eq hin)
  have hJqh : eigenHead dims.robot.q Jq = Jq :=
    List.take_of_length_le (le_of_eq hJq)
  have hJvh : eigenHead dims.robot.v Jv = Jv :=
    List.take_of_length_le (le_of_eq hJv)
  have hs9 : dims.robot.x + 9 * dims.o ≤ state.length := by
    rw [hs, ho]; omega
  refine ⟨?_, ?_, ?_, ?_⟩
  · rw [SystemPinocchioMapping.getPinocchioJointPosition_closed dims rm state
      hs9 (by rw [hsx]; exact hp), ho]
    simp [hsx]
  · rw [SystemPinocchioMapping.getPinocchioJointVelocity_closed dims rm state
      input hs9 (by rw [hsx, hiu]; exact hvl), ho]
    simp [hsx, hiu]
  · rw [SystemPinocchioMapping.getPinocchioJointAcceleration_closed dims rm
      state input hs9 (by rw [hsx, hiu]; exact hal), ho]
    simp [hsx, hiu]
  · rw [SystemPinocchioMapping.getOcs2Jacobian_closed dims rm state Jq Jv
      (by rw [hJq]; simp [OptimizationDimensions.q, ho])
      (by rw [hJv]; simp [OptimizationDimensions.v, ho])
      (by rw [hsx, hJqh, hJvh]; exact hjx)
      (by rw [hsx, hJqh, hJvh]; exact hju), ho]
    simp [hsx, hJqh, hJvh]

/-- C7: the allocations in getJacobianPair have shapes (rows, x()) and
(rows, u()), and their initial contents are unobservable: running the body on
allocations with arbitrary contents of those shapes yields exactly the result
obtained from zero-initialised allocations — equivalently, every entry not
overwritten by the robot write or an obstacle write is zero in the returned
result (here the writes tile all columns, so no entry survives). -/
theorem getOcs2Jacobian_alloc_independent (dims : OptimizationDimensions)
    (rm : PinocchioStateInputMapping) (state : VecXs)
    (Jq_pin Jv_pin dfdx0 dfdu0 : MatXs)
    (hx0 : dfdx0.length = dims.x) (hu0 : dfdu0.length = dims.u)
    (hq : Jq_pin.length = dims.q) (hv : Jv_pin.length = dims.v)
    (hrx : (rm.getOcs2Jacobian (eigenHead dims.robot.x state)
        (eigenHead dims.robot.q Jq_pin) (eigenHead dims.robot.v Jv_pin)).1.length
      = dims.robot.x)
    (hru : (rm.getOcs2Jacobian (eigenHead dims.robot.x state)
        (eigenHead dims.robot.q Jq_pin) (eigenHead dims.robot.v Jv_pin)).2.length
      = dims.robot.u) :
    SystemPinocchioMapping.getOcs2JacobianAlloc dims rm state Jq_pin Jv_pin
        dfdx0 dfdu0
      = SystemPinocchioMapping.getOcs2Jacobian dims rm state Jq_pin Jv_pin := by
  rw [SystemPinocchioMapping.getOcs2JacobianAlloc_closed dims rm state Jq_pin
      Jv_pin dfdx0 dfdu0 hq hv hx0 hu0 hrx hru,
    SystemPinocchioMapping.getOcs2Jacobian_closed dims rm state Jq_pin Jv_pin
      hq hv hrx hru]

/-- C8: obstacles are interchangeable: if s' is s with the 9-entry obstacle
blocks i and j swapped (robot prefix and all other obstacle blocks equal),
then each of getPosition/getVelocity/getAcceleration on s' equals the result
on s with the corresponding 3-entry output blocks i and j swapped and the
robot portion unchanged. -/
theorem obstacle_blocks_interchangeable (dims : OptimizationDimensions)
    (rm : PinocchioStateInputMapping) (s s' input : VecXs) (i j : Nat)
    (ho2 : 2 ≤ dims.o) (hi : i < dims.o) (hj : j < dims.o) (hij : i ≠ j)
    (hs : s.length = dims.x) (hs' : s'.length = dims.x)
    (hrobot : eigenHead dims.robot.x s' = eigenHead dims.robot.x s)
    (hswapi : eigenSegment s' (dims.robot.x + i * 9) 9
      = eigenSegment s (dims.robot.x + j * 9) 9)
    (hswapj : eigenSegment s' (dims.robot.x + j * 9) 9
      = eigenSegment s (dims.robot.x + i * 9) 9)
    (hother : ∀ l, l < dims.o → l ≠ i → l ≠ j →
      eigenSegment s' (dims.robot.x + l * 9) 9
        = eigenSegment s (dims.robot.x + l * 9) 9)
    (hrp : (rm.getPinocchioJointPosition (eigenHead dims.robot.x s)).length
      = dims.robot.q)
    (hrv : (rm.getPinocchioJointVelocity (eigenHead dims.robot.x s)
        (eigenHead dims.robot.u input)).length = dims.robot.v)
    (hra : (rm.getPinocchioJointAcceleration (eigenHead dims.robot.x s)
        (eigenHead dims.robot.u input)).length = dims.robot.v) :
    (eigenHead dims.robot.q
          (SystemPinocchioMapping.getPinocchioJointPosition dims rm s')
        = eigenHead dims.robot.q
          (SystemPinocchioMapping.getPinocchioJointPosition dims rm s)
      ∧ eigenSegment (SystemPinocchioMapping.getPinocchioJointPosition dims rm s')
          (dims.robot.q + i * 3) 3
        = eigenSegment (SystemPinocchioMapping.getPinocchioJointPosition dims rm s)
          (dims.robot.q + j * 3) 3
      ∧ eigenSegment (SystemPinocchioMapping.getPinocchioJointPosition dims rm s')
          (dims.robot.q + j * 3) 3
        = eigenSegment (SystemPinocchioMapping.getPinocchioJointPosition dims rm s)
          (dims.robot.q + i * 3) 3
      ∧ ∀ l, l < dims.o → l ≠ i → l ≠ j →
          eigenSegment (SystemPinocchioMapping.getPinocchioJointPosition dims rm s')
            (dims.robot.q + l * 3) 3
          = eigenSegment (SystemPinocchioMapping.getPinocchioJointPosition dims rm s)
            (dims.robot.q + l * 3) 3)
      ∧ (eigenHead dims.robot.v
          (SystemPinocchioMapping.getPinocchioJointVelocity dims rm s' input)
        = eigenHead dims.robot.v
          (SystemPinocchioMapping.getPinocchioJointVelocity dims rm s input)
      ∧ eigenSegment
          (SystemPinocchioMapping.getPinocchioJointVelocity dims rm s' input)
          (dims.robot.v + i * 3) 3
        = eigenSegment
          (SystemPinocchioMapping.getPinocchioJointVelocity dims rm s input)
          (dims.robot.v + j * 3) 3
      ∧ eigenSegment
          (SystemPinocchioMapping.getPinocchioJointVelocity dims rm s' input)
          (dims.robot.v + j * 3) 3
        = eigenSegment
          (SystemPinocchioMapping.getPinocchioJointVelocity dims rm s input)
          (dims.robot.v + i * 3) 3
      ∧ ∀ l, l < dims.o → l ≠ i → l ≠ j →
          eigenSegment
            (SystemPinocchioMapping.getPinocchioJointVelocity dims rm s' input)
            (dims.robot.v + l * 3) 3
          = eigenSegment
            (SystemPinocchioMapping.getPinocchioJointVelocity dims rm s input)
            (dims.robot.v + l * 3) 3)
      ∧ (eigenHead dims.robot.v
          (SystemPinocchioMapping.getPinocchioJointAcceleration dims rm s' input)
        = eigenHead dims.robot.v
          (SystemPinocchioMapping.getPinocchioJointAcceleration dims rm s input)
      ∧ eigenSegment
          (SystemPinocchioMapping.getPinocchioJointAcceleration dims rm s' input)
          (dims.robot.v + i * 3) 3
        = eigenSegment
          (SystemPinocchioMapping.getPinocchioJointAcceleration dims rm s input)
          (dims.robot.v + j * 3) 3
      ∧ eigenSegment
          (SystemPinocchioMapping.getPinocchioJointAcceleration dims rm s' input)
          (dims.robot.v + j * 3) 3
        = eigenSegment
          (SystemPinocchioMapping.getPinocchioJointAcceleration dims rm s input)
          (dims.robot.v + i * 3) 3
      ∧ ∀ l, l < dims.o → l ≠ i → l ≠ j →
          eigenSegment
            (SystemPinocchioMapping.getPinocchioJointAcceleration dims rm s' input)
            (dims.robot.v + l * 3) 3
          = eigenSegment
            (SystemPinocchioMapping.getPinocchioJointAcceleration dims rm s input)
            (dims.robot.v + l * 3) 3) := by
  have hs9 : dims.robot.x + 9 * dims.o ≤ s.length := by
    rw [hs]; simp only [OptimizationDimensions.x]; omega
  have hs9' : dims.robot.x + 9 * dims.o ≤ s'.length := by
    rw [hs']; simp only [OptimizationDimensions.x]; omega
  have hrp' : (rm.getPinocchioJointPosition (eigenHead dims.robot.x s')).length
      = dims.robot.q := by rw [hrobot]; exact hrp
  have hrv' : (rm.getPinocchioJointVelocity (eigenHead dims.robot.x s')
      (eigenHead dims.robot.u input)).length = dims.robot.v := by
    rw [hrobot]; exact hrv
  have hra' : (rm.getPinocchioJointAcceleration (eigenHead dims.robot.x s')
      (eigenHead dims.robot.u input)).length = dims.robot.v := by
    rw [hrobot]; exact hra
  refine ⟨⟨?_, ?_, ?_, ?_⟩, ⟨?_, ?_, ?_, ?_⟩, ⟨?_, ?_, ?_, ?_⟩⟩
  · rw [SystemPinocchioMapping.getPosition_head dims rm s' hs9' hrp',
      SystemPinocchioMapping.getPosition_head dims rm s hs9 hrp, hrobot]
  · rw [SystemPinocchioMapping.getPosition_block dims rm s' hs9' hrp' i hi,
      SystemPinocchioMapping.getPosition_block dims rm s hs9 hrp j hj, hswapi]
  · rw [SystemPinocchioMapping.getPosition_block dims rm s' hs9' hrp' j hj,
      SystemPinocchioMapping.getPosition_block dims rm s hs9 hrp i hi, hswapj]
  · intro l hl hli hlj
    rw [SystemPinocchioMapping.getPosition_block dims rm s' hs9' hrp' l hl,
      SystemPinocchioMapping.getPosition_block dims rm s hs9 hrp l hl,
      hother l hl hli hlj]
  · rw [SystemPinocchioMapping.getVelocity_head dims rm s' input hs9' hrv',
      SystemPinocchioMapping.getVelocity_head dims rm s input hs9 hrv, hrobot]
  · rw [SystemPinocchioMapping.getVelocity_block dims rm s' input hs9' hrv' i hi,
      SystemPinocchioMapping.getVelocity_block dims rm s input hs9 hrv j hj,
      hswapi]
  · rw [SystemPinocchioMapping.getVelocity_block dims rm s' input hs9' hrv' j hj,
      SystemPinocchioMapping.getVelocity_block dims rm s input hs9 hrv i hi,
      hswapj]
  · intro l hl hli hlj
    rw [SystemPinocchioMapping.getVelocity_block dims rm s' input hs9' hrv' l hl,
      SystemPinocchioMapping.getVelocity_block dims rm s input hs9 hrv l hl,
      hother l hl hli hlj]
  · rw [SystemPinocchioMapping.getAcceleration_head dims rm s' input hs9' hra',
      SystemPinocchioMapping.getAcceleration_head dims rm s input hs9 hra,
      hrobot]
  · rw [SystemPinocchioMapping.getAcceleration_block dims rm s' input hs9' hra'
      i hi,
      SystemPinocchioMapping.getAcceleration_block dims rm s input hs9 hra j hj,
      hswapi]
  · rw [SystemPinocchioMapping.getAcceleration_block dims rm s' input hs9' hra'
      j hj,
      SystemPinocchioMapping.getAcceleration_block dims rm s input hs9 hra i hi,
      hswapj]
  · intro l hl hli hlj
    rw [SystemPinocchioMapping.getAcceleration_block dims rm s' input hs9' hra'
      l hl,
      SystemPinocchioMapping.getAcceleration_block dims rm s input hs9 hra l hl,
      hother l hl hli hlj]

/-- C10: every composite operation reads only the first x() entries of its
state and the first u() entries of its input: two calls whose vector arguments
agree on those prefixes (even if longer) return identical results. -/
theorem composite_reads_fixed_prefixes (dims : OptimizationDimensions)
    (rm : PinocchioStateInputMapping) (s1 s2 i1 i2 : VecXs)
    (Jq_pin Jv_pin : MatXs)
    (hs : s1.take dims.x = s2.take dims.x)
    (hu : i1.take dims.u = i2.take dims.u) :
    SystemPinocchioMapping.getPinocchioJointPosition dims rm s1
        = SystemPinocchioMapping.getPinocchioJointPosition dims rm s2
      ∧ SystemPinocchioMapping.getPinocchioJointVelocity dims rm s1 i1
        = SystemPinocchioMapping.getPinocchioJointVelocity dims rm s2 i2
      ∧ SystemPinocchioMapping.getPinocchioJointAcceleration dims rm s1 i1
        = SystemPinocchioMapping.getPinocchioJointAcceleration dims rm s2 i2
      ∧ SystemPinocchioMapping.getOcs2Jacobian dims rm s1 Jq_pin Jv_pin
        = SystemPinocchioMapping.getOcs2Jacobian dims rm s2 Jq_pin Jv_pin := by
  have hxr : eigenHead dims.robot.x s1 = eigenHead dims.robot.x s2 :=
    take_agree_eigenHead hs dims.robot.x
      (by simp only [OptimizationDimensions.x]; omega)
  have hur : eigenHead dims.robot.u i1 = eigenHead dims.robot.u i2 :=
    take_agree_eigenHead hu dims.robot.u
      (by simp only [OptimizationDimensions.u]; omega)
  have hslice : ∀ l, l < dims.o → eigenSegment s1 (dims.robot.x + l * 9) 9
      = eigenSegment s2 (dims.robot.x + l * 9) 9 := fun l hl =>
    take_agree_eigenSegment hs _ _
      (by simp only [OptimizationDimensions.x]; omega)
  refine ⟨?_, ?_, ?_, ?_⟩
  · simp only [SystemPinocchioMapping.getPinocchioJointPosition]
    rw [hxr]
    exact List.foldl_ext _ _ _
      (fun a b hb => by rw [hslice b (List.mem_range.1 hb)])
  · simp only [SystemPinocchioMapping.getPinocchioJointVelocity]
    rw [hxr, hur]
    exact List.foldl_ext _ _ _
      (fun a b hb => by rw [hslice b (List.mem_range.1 hb)])
  · simp only [SystemPinocchioMapping.getPinocchioJointAcceleration]
    rw [hxr, hur]
    exact List.foldl_ext _ _ _
      (fun a b hb => by rw [hslice b (List.mem_range.1 hb)])
  · simp only [SystemPinocchioMapping.getOcs2Jacobian,
      SystemPinocchioMapping.getOcs2JacobianAlloc]
    rw [hxr]
    exact congrArg₂ Prod.mk (List.foldl_ext _ _ _ (fun a b _ => rfl)) rfl

/-- C5 witness: the one-obstacle scenario, evaluated concretely. -/
theorem composite_velocity_acceleration_blocks_witness :
    (([10, 20, 1, 2, 3, 4, 5, 6, 7, 8, 9] : VecXs).length
        = (⟨⟨1, 1, 2, 1⟩, 1⟩ : OptimizationDimensions).x
      ∧ ([0] : VecXs).length = (⟨⟨1, 1, 2, 1⟩, 1⟩ : OptimizationDimensions).u)
      ∧ (SystemPinocchioMapping.getPinocchioJointVelocity ⟨⟨1, 1, 2, 1⟩, 1⟩
          (TripleIntegratorPinocchioMapping ⟨1, 1, 2, 1⟩)
          [10, 20, 1, 2, 3, 4, 5, 6, 7, 8, 9] [0]).length = 4
      ∧ eigenHead 1 (SystemPinocchioMapping.getPinocchioJointVelocity
          ⟨⟨1, 1, 2, 1⟩, 1⟩ (TripleIntegratorPinocchioMapping ⟨1, 1, 2, 1⟩)
          [10, 20, 1, 2, 3, 4, 5, 6, 7, 8, 9] [0]) = [20]
      ∧ eigenSegment (SystemPinocchioMapping.getPinocchioJointVelocity
          ⟨⟨1, 1, 2, 1⟩, 1⟩ (TripleIntegratorPinocchioMapping ⟨1, 1, 2, 1⟩)
          [10, 20, 1, 2, 3, 4, 5, 6, 7, 8, 9] [0]) 1 3 = [4, 5, 6]
      ∧ (SystemPinocchioMapping.getPinocchioJointAcceleration ⟨⟨1, 1, 2, 1⟩, 1⟩
          (TripleIntegratorPinocchioMapping ⟨1, 1, 2, 1⟩)
          [10, 20, 1, 2, 3, 4, 5, 6, 7, 8, 9] [0]).length = 4
      ∧ eigenHead 1 (SystemPinocchioMapping.getPinocchioJointAcceleration
          ⟨⟨1, 1, 2, 1⟩, 1⟩ (TripleIntegratorPinocchioMapping ⟨1, 1, 2, 1⟩)
          [10, 20, 1, 2, 3, 4, 5, 6, 7, 8, 9] [0]) = [20]
      ∧ eigenSegment (SystemPinocchioMapping.getPinocchioJointAcceleration
          ⟨⟨1, 1, 2, 1⟩, 1⟩ (TripleIntegratorPinocchioMapping ⟨1, 1, 2, 1⟩)
          [10, 20, 1, 2, 3, 4, 5, 6, 7, 8, 9] [0]) 1 3 = [7, 8, 9] := by
  have h := composite_velocity_acceleration_blocks ⟨⟨1, 1, 2, 1⟩, 1⟩
    (TripleIntegratorPinocchioMapping ⟨1, 1, 2, 1⟩)
    [10, 20, 1, 2, 3, 4, 5, 6, 7, 8, 9] [0]
    (by decide) (by decide) (by decide) (by decide)
  exact ⟨⟨by decide, by decide⟩, h.1, h.2.1, h.2.2.1 0 (by decide),
    h.2.2.2.1, h.2.2.2.2.1, h.2.2.2.2.2 0 (by decide)⟩

/-- C1 witness: one obstacle, 1-row Jacobians, evaluated concretely. -/
theorem composite_getOcs2Jacobian_assembly_witness :
    (([1, 2, 3, 1, 2, 3, 4, 5, 6, 7, 8, 9] : VecXs).length
        = (⟨⟨1, 1, 3, 1⟩, 1⟩ : OptimizationDimensions).x
      ∧ ([[1], [2], [3], [4]] : MatXs).length
        = (⟨⟨1, 1, 3, 1⟩, 1⟩ : OptimizationDimensions).q
      ∧ ([[5], [6], [7], [8]] : MatXs).length
        = (⟨⟨1, 1, 3, 1⟩, 1⟩ : OptimizationDimensions).v)
      ∧ (SystemPinocchioMapping.getOcs2Jacobian ⟨⟨1, 1, 3, 1⟩, 1⟩
          (TripleIntegratorPinocchioMapping ⟨1, 1, 3, 1⟩)
          [1, 2, 3, 1, 2, 3, 4, 5, 6, 7, 8, 9]
          [[1], [2], [3], [4]] [[5], [6], [7], [8]]).1.length = 12
      ∧ (SystemPinocchioMapping.getOcs2Jacobian ⟨⟨1, 1, 3, 1⟩, 1⟩
          (TripleIntegratorPinocchioMapping ⟨1, 1, 3, 1⟩)
          [1, 2, 3, 1, 2, 3, 4, 5, 6, 7, 8, 9]
          [[1], [2], [3], [4]] [[5], [6], [7], [8]]).2.length = 1
      ∧ eigenHead 3 (SystemPinocchioMapping.getOcs2Jacobian ⟨⟨1, 1, 3, 1⟩, 1⟩
          (TripleIntegratorPinocchioMapping ⟨1, 1, 3, 1⟩)
          [1, 2, 3, 1, 2, 3, 4, 5, 6, 7, 8, 9]
          [[1], [2], [3], [4]] [[5], [6], [7], [8]]).1 = [[1], [5], [0]]
      ∧ eigenHead 1 (SystemPinocchioMapping.getOcs2Jacobian ⟨⟨1, 1, 3, 1⟩, 1⟩
          (TripleIntegratorPinocchioMapping ⟨1, 1, 3, 1⟩)
          [1, 2, 3, 1, 2, 3, 4, 5, 6, 7, 8, 9]
          [[1], [2], [3], [4]] [[5], [6], [7], [8]]).2 = [[0]]
      ∧ eigenSegment (SystemPinocchioMapping.getOcs2Jacobian ⟨⟨1, 1, 3, 1⟩, 1⟩
          (TripleIntegratorPinocchioMapping ⟨1, 1, 3, 1⟩)
          [1, 2, 3, 1, 2, 3, 4, 5, 6, 7, 8, 9]
          [[1], [2], [3], [4]] [[5], [6], [7], [8]]).1 3 9
        = [[2], [3], [4], [6], [7], [8], [0], [0], [0]]
      ∧ (SystemPinocchioMapping.getOcs2Jacobian ⟨⟨1, 1, 3, 1⟩, 1⟩
          (TripleIntegratorPinocchioMapping ⟨1, 1, 3, 1⟩)
          [1, 2, 3, 1, 2, 3, 4, 5, 6, 7, 8, 9]
          [[1], [2], [3], [4]] [[5], [6], [7], [8]]).1
        = [[1], [5], [0], [2], [3], [4], [6], [7], [8], [0], [0], [0]] := by
  have h := composite_getOcs2Jacobian_assembly ⟨⟨1, 1, 3, 1⟩, 1⟩
    (TripleIntegratorPinocchioMapping ⟨1, 1, 3, 1⟩)
    [1, 2, 3, 1, 2, 3, 4, 5, 6, 7, 8, 9]
    [[1], [2], [3], [4]] [[5], [6], [7], [8]]
    (by decide) (by decide) (by decide) (by decide) (by decide)
  exact ⟨⟨by decide, by decide, by decide⟩, h.1, h.2.1, h.2.2.1, h.2.2.2.1,
    h.2.2.2.2.1 0 (by decide), h.2.2.2.2.2.2⟩

/-- C3 witness: o = 0, robot-sized arguments, evaluated concretely. -/
theorem composite_degenerates_to_robot_witness :
    ((⟨⟨1, 1, 3, 1⟩, 0⟩ : OptimizationDimensions).o = 0
      ∧ ([4, 5, 6] : VecXs).length = 3 ∧ ([7] : VecXs).length = 1
      ∧ ([[1]] : MatXs).length = 1 ∧ ([[2]] : MatXs).length = 1)
      ∧ SystemPinocchioMapping.getPinocchioJointPosition ⟨⟨1, 1, 3, 1⟩, 0⟩
          (TripleIntegratorPinocchioMapping ⟨1, 1, 3, 1⟩) [4, 5, 6]
        = (TripleIntegratorPinocchioMapping ⟨1, 1, 3, 1⟩).getPinocchioJointPosition
          [4, 5, 6]
      ∧ SystemPinocchioMapping.getPinocchioJointVelocity ⟨⟨1, 1, 3, 1⟩, 0⟩
          (TripleIntegratorPinocchioMapping ⟨1, 1, 3, 1⟩) [4, 5, 6] [7]
        = (TripleIntegratorPinocchioMapping ⟨1, 1, 3, 1⟩).getPinocchioJointVelocity
          [4, 5, 6] [7]
      ∧ SystemPinocchioMapping.getPinocchioJointAcceleration ⟨⟨1, 1, 3, 1⟩, 0⟩
          (TripleIntegratorPinocchioMapping ⟨1, 1, 3, 1⟩) [4, 5, 6] [7]
        = (TripleIntegratorPinocchioMapping
            ⟨1, 1, 3, 1⟩).getPinocchioJointAcceleration [4, 5, 6] [7]
      ∧ SystemPinocchioMapping.getOcs2Jacobian ⟨⟨1, 1, 3, 1⟩, 0⟩
          (TripleIntegratorPinocchioMapping ⟨1, 1, 3, 1⟩) [4, 5, 6] [[1]] [[2]]
        = (TripleIntegratorPinocchioMapping ⟨1, 1, 3, 1⟩).getOcs2Jacobian
          [4, 5, 6] [[1]] [[2]] := by
  have h := composite_degenerates_to_robot ⟨⟨1, 1, 3, 1⟩, 0⟩
    (TripleIntegratorPinocchioMapping ⟨1, 1, 3, 1⟩) [4, 5, 6] [7] [[1]] [[2]]
    (by decide) (by decide) (by decide) (by decide) (by decide) (by decide)
    (by decide) (by decide) (by decide) (by decide)
  exact ⟨⟨by decide, by decide, by decide, by decide, by decide⟩,
    h.1, h.2.1, h.2.2.1, h.2.2.2⟩

/-- C7 witness: junk-filled allocations of the contract shapes give the same
result as the zero-filled allocations. -/
theorem getOcs2Jacobian_alloc_independent_witness :
    ((List.replicate 12 [7] : MatXs).length
        = (⟨⟨1, 1, 3, 1⟩, 1⟩ : OptimizationDimensions).x
      ∧ ([[8]] : MatXs).length = (⟨⟨1, 1, 3, 1⟩, 1⟩ : OptimizationDimensions).u)
      ∧ SystemPinocchioMapping.getOcs2JacobianAlloc ⟨⟨1, 1, 3, 1⟩, 1⟩
          (TripleIntegratorPinocchioMapping ⟨1, 1, 3, 1⟩)
          [1, 2, 3, 1, 2, 3, 4, 5, 6, 7, 8, 9]
          [[1], [2], [3], [4]] [[5], [6], [7], [8]]
          (List.replicate 12 [7]) [[8]]
        = SystemPinocchioMapping.getOcs2Jacobian ⟨⟨1, 1, 3, 1⟩, 1⟩
          (TripleIntegratorPinocchioMapping ⟨1, 1, 3, 1⟩)
          [1, 2, 3, 1, 2, 3, 4, 5, 6, 7, 8, 9]
          [[1], [2], [3], [4]] [[5], [6], [7], [8]] :=
  ⟨⟨by decide, by decide⟩,
    getOcs2Jacobian_alloc_independent ⟨⟨1, 1, 3, 1⟩, 1⟩
      (TripleIntegratorPinocchioMapping ⟨1, 1, 3, 1⟩)
      [1, 2, 3, 1, 2, 3, 4, 5, 6, 7, 8, 9]
      [[1], [2], [3], [4]] [[5], [6], [7], [8]]
      (List.replicate 12 [7]) [[8]]
      (by decide) (by decide) (by decide) (by decide) (by decide) (by decide)⟩

/-- C8 witness: two obstacles with blocks swapped, evaluated concretely. -/
theorem obstacle_blocks_interchangeable_witness :
    (2 ≤ (⟨⟨1, 1, 2, 1⟩, 2⟩ : OptimizationDimensions).o
      ∧ eigenHead 2
          ([10, 20, 11, 12, 13, 14, 15, 16, 17, 18, 19,
            1, 2, 3, 4, 5, 6, 7, 8, 9] : VecXs)
        = eigenHead 2
          ([10, 20, 1, 2, 3, 4, 5, 6, 7, 8, 9,
            11, 12, 13, 14, 15, 16, 17, 18, 19] : VecXs)
      ∧ eigenSegment
          ([10, 20, 11, 12, 13, 14, 15, 16, 17, 18, 19,
            1, 2, 3, 4, 5, 6, 7, 8, 9] : VecXs) 2 9
        = eigenSegment
          ([10, 20, 1, 2, 3, 4, 5, 6, 7, 8, 9,
            11, 12, 13, 14, 15, 16, 17, 18, 19] : VecXs) 11 9)
      ∧ eigenHead 1 (SystemPinocchioMapping.getPinocchioJointPosition
          ⟨⟨1, 1, 2, 1⟩, 2⟩ (TripleIntegratorPinocchioMapping ⟨1, 1, 2, 1⟩)
          [10, 20, 11, 12, 13, 14, 15, 16, 17, 18, 19, 1, 2, 3, 4, 5, 6, 7, 8, 9])
        = eigenHead 1 (SystemPinocchioMapping.getPinocchioJointPosition
          ⟨⟨1, 1, 2, 1⟩, 2⟩ (TripleIntegratorPinocchioMapping ⟨1, 1, 2, 1⟩)
          [10, 20, 1, 2, 3, 4, 5, 6, 7, 8, 9, 11, 12, 13, 14, 15, 16, 17, 18, 19])
      ∧ eigenSegment (SystemPinocchioMapping.getPinocchioJointPosition
          ⟨⟨1, 1, 2, 1⟩, 2⟩ (TripleIntegratorPinocchioMapping ⟨1, 1, 2, 1⟩)
          [10, 20, 11, 12, 13, 14, 15, 16, 17, 18, 19, 1, 2, 3, 4, 5, 6, 7, 8, 9])
          1 3
        = eigenSegment (SystemPinocchioMapping.getPinocchioJointPosition
          ⟨⟨1, 1, 2, 1⟩, 2⟩ (TripleIntegratorPinocchioMapping ⟨1, 1, 2, 1⟩)
          [10, 20, 1, 2, 3, 4, 5, 6, 7, 8, 9, 11, 12, 13, 14, 15, 16, 17, 18, 19])
          4 3
      ∧ eigenSegment (SystemPinocchioMapping.getPinocchioJointVelocity
          ⟨⟨1, 1, 2, 1⟩, 2⟩ (TripleIntegratorPinocchioMapping ⟨1, 1, 2, 1⟩)
          [10, 20, 11, 12, 13, 14, 15, 16, 17, 18, 19, 1, 2, 3, 4, 5, 6, 7, 8, 9]
          [0]) 1 3
        = eigenSegment (SystemPinocchioMapping.getPinocchioJointVelocity
          ⟨⟨1, 1, 2, 1⟩, 2⟩ (TripleIntegratorPinocchioMapping ⟨1, 1, 2, 1⟩)
          [10, 20, 1, 2, 3, 4, 5, 6, 7, 8, 9, 11, 12, 13, 14, 15, 16, 17, 18, 19]
          [0]) 4 3
      ∧ eigenSegment (SystemPinocchioMapping.getPinocchioJointAcceleration
          ⟨⟨1, 1, 2, 1⟩, 2⟩ (TripleIntegratorPinocchioMapping ⟨1, 1, 2, 1⟩)
          [10, 20, 11, 12, 13, 14, 15, 16, 17, 18, 19, 1, 2, 3, 4, 5, 6, 7, 8, 9]
          [0]) 4 3
        = eigenSegment (SystemPinocchioMapping.getPinocchioJointAcceleration
          ⟨⟨1, 1, 2, 1⟩, 2⟩ (TripleIntegratorPinocchioMapping ⟨1, 1, 2, 1⟩)
          [10, 20, 1, 2, 3, 4, 5, 6, 7, 8, 9, 11, 12, 13, 14, 15, 16, 17, 18, 19]
          [0]) 1 3 := by
  have h := obstacle_blocks_interchangeable ⟨⟨1, 1, 2, 1⟩, 2⟩
    (TripleIntegratorPinocchioMapping ⟨1, 1, 2, 1⟩)
    [10, 20, 1, 2, 3, 4, 5, 6, 7, 8, 9, 11, 12, 13, 14, 15, 16, 17, 18, 19]
    [10, 20, 11, 12, 13, 14, 15, 16, 17, 18, 19, 1, 2, 3, 4, 5, 6, 7, 8, 9]
    [0] 0 1
    (by decide) (by decide) (by decide) (by decide) (by decide) (by decide)
    (by decide) (by decide) (by decide) (by decide) (by decide) (by decide)
    (by decide)
  exact ⟨⟨by decide, by decide, by decide⟩, h.1.1, h.1.2.1, h.2.1.2.1,
    h.2.2.2.2.1⟩

/-- C10 witness: states differing past index x() and inputs differing past
index u() give identical results. -/
theorem composite_reads_fixed_prefixes_witness :
    (([10, 20, 1, 2, 3, 4, 5, 6, 7, 8, 9, 99] : VecXs).take 11
        = ([10, 20, 1, 2, 3, 4, 5, 6, 7, 8, 9, 77] : VecXs).take 11
      ∧ ([0, 5] : VecXs).take 1 = ([0, 6] : VecXs).take 1)
      ∧ SystemPinocchioMapping.getPinocchioJointPosition ⟨⟨1, 1, 2, 1⟩, 1⟩
          (TripleIntegratorPinocchioMapping ⟨1, 1, 2, 1⟩)
          [10, 20, 1, 2, 3, 4, 5, 6, 7, 8, 9, 99]
        = SystemPinocchioMapping.getPinocchioJointPosition ⟨⟨1, 1, 2, 1⟩, 1⟩
          (TripleIntegratorPinocchioMapping ⟨1, 1, 2, 1⟩)
          [10, 20, 1, 2, 3, 4, 5, 6, 7, 8, 9, 77]
      ∧ SystemPinocchioMapping.getPinocchioJointVelocity ⟨⟨1, 1, 2, 1⟩, 1⟩
          (TripleIntegratorPinocchioMapping ⟨1, 1, 2, 1⟩)
          [10, 20, 1, 2, 3, 4, 5, 6, 7, 8, 9, 99] [0, 5]
        = SystemPinocchioMapping.getPinocchioJointVelocity ⟨⟨1, 1, 2, 1⟩, 1⟩
          (TripleIntegratorPinocchioMapping ⟨1, 1, 2, 1⟩)
          [10, 20, 1, 2, 3, 4, 5, 6, 7, 8, 9, 77] [0, 6]
      ∧ SystemPinocchioMapping.getPinocchioJointAcceleration ⟨⟨1, 1, 2, 1⟩, 1⟩
          (TripleIntegratorPinocchioMapping ⟨1, 1, 2, 1⟩)
          [10, 20, 1, 2, 3, 4, 5, 6, 7, 8, 9, 99] [0, 5]
        = SystemPinocchioMapping.getPinocchioJointAcceleration ⟨⟨1, 1, 2, 1⟩, 1⟩
          (TripleIntegratorPinocchioMapping ⟨1, 1, 2, 1⟩)
          [10, 20, 1, 2, 3, 4, 5, 6, 7, 8, 9, 77] [0, 6]
      ∧ SystemPinocchioMapping.getOcs2Jacobian ⟨⟨1, 1, 2, 1⟩, 1⟩
          (TripleIntegratorPinocchioMapping ⟨1, 1, 2, 1⟩)
          [10, 20, 1, 2, 3, 4, 5, 6, 7, 8, 9, 99]
          [[1], [2], [3], [4]] [[5], [6], [7], [8]]
        = SystemPinocchioMapping.getOcs2Jacobian ⟨⟨1, 1, 2, 1⟩, 1⟩
          (TripleIntegratorPinocchioMapping ⟨1, 1, 2, 1⟩)
          [10, 20, 1, 2, 3, 4, 5, 6, 7, 8, 9, 77]
          [[1], [2], [3], [4]] [[5], [6], [7], [8]] := by
  have h := composite_reads_fixed_prefixes ⟨⟨1, 1, 2, 1⟩, 1⟩
    (TripleIntegratorPinocchioMapping ⟨1, 1, 2, 1⟩)
    [10, 20, 1, 2, 3, 4, 5, 6, 7, 8, 9, 99]
    [10, 20, 1, 2, 3, 4, 5, 6, 7, 8, 9, 77]
    [0, 5] [0, 6] [[1], [2], [3], [4]] [[5], [6], [7], [8]]
    (by decide) (by decide)
  exact ⟨⟨by decide, by decide⟩, h.1, h.2.1, h.2.2.1, h.2.2.2⟩

end upright
